import Mathlib

/-!
Shallow embedding of the delivery-bot core (driver registry, proximity
matching, order negotiation) from `telegram_delivery_bot.py`, together with
theorems settling the frozen claims.

Modelling conventions:
* Sheet rows (`get_all_records` dictionaries) become Lean structures.  Cells
  that the code feeds to Python `float(...)` (latitude, longitude, the parsed
  `last_update` timestamp) are modelled as `Option ℚ`: `some q` when the cell
  parses to the number `q`, `none` when the cell is empty or unparseable
  (where `float` would raise and the code takes its exception branch).
* Wall-clock time is an integer number of minutes (the code only ever uses
  `(now - last_dt).total_seconds() / 60.0` compared against the 10-minute
  integer threshold, so whole minutes as ℤ carry the logic and keep every
  definition kernel-executable).
* `haversine` computes transcendental trigonometric expressions over floats;
  no claim depends on its numeric value, only on how its results are used to
  order candidates.  It is therefore a parameter `hav` of the matching
  pipeline, and the ordering theorems hold for every such function.
* Telegram chat ids are natural numbers; the code compares them through
  `str(...)` on both sides, which is equality of the numbers.
* `send_message` side effects are recorded as the list of recipient chat ids
  (`notified`); `query.edit_message_text` rewrites the pressing user's own
  message and is not a cross-party notification, so it is not recorded.
  Message text (Arabic UI strings) is out of scope.
* Python's `list.sort(key=...)` is a stable ascending sort; it is modelled by
  `List.mergeSort` with the corresponding Boolean comparison on keys.
-/

namespace Wasal

/-- `CURRENCY` from the configuration block. -/
def CURRENCY : String := "SAR"

/-- `INACTIVE_THRESHOLD` (minutes) from the configuration block. -/
def INACTIVE_THRESHOLD : ℤ := 10

/-- `MAX_DISPLAY_DRIVERS` from the configuration block. -/
def MAX_DISPLAY_DRIVERS : ℕ := 10

/-- A row of the Drivers sheet, as returned by `drivers_ws.get_all_records()`.
`latitude`, `longitude` carry the result of `float(cell)` (`none` when the
cell would make `float` raise, e.g. the empty string written at
registration); `last_update` carries the parsed timestamp in minutes
(`none` when the cell is empty or `datetime.fromisoformat` raises). -/
structure DriverRec where
  driver_id : String
  driver_name : String
  chat_id : ℕ
  age : String
  nationality : String
  phone : String
  vehicle_type : String
  vehicle_make : String
  vehicle_year : String
  gender : String
  latitude : Option ℚ
  longitude : Option ℚ
  last_update : Option ℤ
  active : String
deriving DecidableEq, Repr

/-- A row of the Orders sheet, as written by `add_order_to_sheet` and read
back by `orders_ws.get_all_records()`. -/
structure OrderRec where
  order_id : String
  client_id : ℕ
  client_name : String
  pickup_loc : String
  pickup_desc : String
  dest_loc : String
  dest_desc : String
  client_price : String
  currency : String
  status : String
  driver_id : String
  driver_name : String
  driver_price : String
  counter_price : String
  timestamp : String
deriving DecidableEq, Repr

/-- The `updates` dictionary accepted by `update_order_in_sheet`: any subset
of the five columns the function is willing to write. -/
structure OrderUpdates where
  status : Option String := none
  driver_id : Option String := none
  driver_name : Option String := none
  driver_price : Option String := none
  counter_price : Option String := none
deriving DecidableEq, Repr

/-- The per-key writes performed by `update_order_in_sheet` on the matching
row: each of the five columns is overwritten exactly when its key is present
in `updates`. -/
def applyUpdates (u : OrderUpdates) (r : OrderRec) : OrderRec :=
  { r with
    status := u.status.getD r.status
    driver_id := u.driver_id.getD r.driver_id
    driver_name := u.driver_name.getD r.driver_name
    driver_price := u.driver_price.getD r.driver_price
    counter_price := u.counter_price.getD r.counter_price }

/-- `update_order_in_sheet(order_id, updates)`: scan the Orders sheet in row
order, rewrite the five update columns of the first row whose `order_id`
matches and return `True`; return `False` (writing nothing) when no row
matches. -/
def update_order_in_sheet (order_id : String) (updates : OrderUpdates) :
    List OrderRec → Bool × List OrderRec
  | [] => (false, [])
  | r :: rest =>
    if r.order_id = order_id then
      (true, applyUpdates updates r :: rest)
    else
      let p := update_order_in_sheet order_id updates rest
      (p.1, r :: p.2)

/-- Python `str.lower()`, written over the character list so that it is
kernel-executable (`String.toLower` itself recurses on byte positions, which
the kernel cannot unfold). -/
def pyLower (s : String) : String := (s.data.map Char.toLower).asString

/-- Python `str.strip()` over the character list. -/
def pyStrip (s : String) : String :=
  (((s.data.dropWhile Char.isWhitespace).reverse.dropWhile
    Char.isWhitespace).reverse).asString

/-- `str(r.get("active", "")).lower() in ("yes", "true")`. -/
def isYes (s : String) : Bool := pyLower s = "yes" || pyLower s = "true"

/-- `minutes_diff` in `get_active_drivers_records`: a missing or unparseable
`last_update` is replaced by `now - timedelta(minutes=9999)`. -/
def minutesDiff (now : ℤ) (r : DriverRec) : ℤ :=
  now - (match r.last_update with
    | some t => t
    | none => now - 9999)

/-- `get_active_drivers_records(mark_inactive)`: returns the rows whose
active flag is set and whose `last_update` is within `INACTIVE_THRESHOLD`
minutes, and (when `mark_inactive`) persists `active = "no"` for every row
found flagged active but stale.  The second component is the Drivers sheet
after these writes. -/
def get_active_drivers_records (mark_inactive : Bool) (now : ℤ) :
    List DriverRec → List DriverRec × List DriverRec
  | [] => ([], [])
  | r :: rest =>
    let p := get_active_drivers_records mark_inactive now rest
    if isYes r.active && decide (minutesDiff now r ≤ INACTIVE_THRESHOLD) then
      (r :: p.1, r :: p.2)
    else if isYes r.active && decide (INACTIVE_THRESHOLD < minutesDiff now r)
        && mark_inactive then
      (p.1, { r with active := "no" } :: p.2)
    else
      (p.1, r :: p.2)

/-- The row-level effect of a `mark_inactive` query on one Drivers row. -/
def demoteStale (now : ℤ) (r : DriverRec) : DriverRec :=
  if isYes r.active && decide (INACTIVE_THRESHOLD < minutesDiff now r) then
    { r with active := "no" }
  else r

/-- One filter predicate of `filter_and_sort_drivers`:
`str(field).strip().lower() != flt.strip().lower()` skips the row; a missing
filter constrains nothing. -/
def filterMatch (flt : Option String) (v : String) : Bool :=
  match flt with
  | none => true
  | some s => pyLower (pyStrip v) = pyLower (pyStrip s)

/-- The sort key of `filter_and_sort_drivers`:
`x[1] if x[1] is not None else 99999`. -/
def distKey (x : DriverRec × Option ℚ) : ℚ := x.2.getD 99999

/-- The Boolean comparison realising Python's ascending sort by `distKey`. -/
def distLE (a b : DriverRec × Option ℚ) : Bool := decide (distKey a ≤ distKey b)

/-- The filtering loop of `filter_and_sort_drivers` over the active
candidates: rows failing a present filter are skipped; `float(lat)` /
`float(lon)` raising (invalid or missing coordinates) hits the
`except: continue` and drops the row; surviving rows are paired with
`haversine(client, row)` when a client location is given, else with `None`. -/
def filteredCandidates (hav : ℚ → ℚ → ℚ → ℚ → Option ℚ)
    (client_loc : Option (ℚ × ℚ)) (nation vtype gender : Option String)
    (candidates : List DriverRec) : List (DriverRec × Option ℚ) :=
  candidates.filterMap fun d =>
    if filterMatch nation d.nationality && filterMatch vtype d.vehicle_type
        && filterMatch gender d.gender then
      match d.latitude, d.longitude with
      | some latf, some lonf =>
        some (d, match client_loc with
          | some cl => hav cl.1 cl.2 latf lonf
          | none => none)
      | _, _ => none
    else none

/-- `filter_and_sort_drivers(client_loc, nation, vtype, gender)`: pull the
active candidates (persisting staleness demotions), filter them, sort by
distance when a client location is present (stable, absent distances keyed as
99999), and truncate to `MAX_DISPLAY_DRIVERS`.  Also returns the Drivers
sheet as left by the embedded `get_active_drivers_records` call. -/
def filter_and_sort_drivers (hav : ℚ → ℚ → ℚ → ℚ → Option ℚ)
    (client_loc : Option (ℚ × ℚ)) (nation vtype gender : Option String)
    (now : ℤ) (recs : List DriverRec) :
    List (DriverRec × Option ℚ) × List DriverRec :=
  let p := get_active_drivers_records true now recs
  let filtered := filteredCandidates hav client_loc nation vtype gender p.1
  let sorted := match client_loc with
    | some _ => filtered.mergeSort distLE
    | none => filtered
  (sorted.take MAX_DISPLAY_DRIVERS, p.2)

/-- `new_order_id()`: `f"O{int(time.time())}"`, taking the integer epoch
second as the argument. -/
def new_order_id (t : ℕ) : String := "O" ++ toString t

/-- The per-driver scratch entry kept in `context.application.user_data`:
either the request mapping stored by `request_driver_callback` or the
pending-counter mapping stored by `driver_counter_callback`. -/
inductive UserData where
  | pendingOrder (pending_order_id : String) (client_chat_id : ℕ)
      (client_name : String) (client_price : String)
  | pendingCounter (pending_counter_order : String) (client_chat_id : ℕ)
      (client_price : String)
deriving DecidableEq, Repr

/-- `context.application.user_data`, an id-keyed dictionary. -/
abbrev UDMap := List (ℕ × UserData)

/-- Dictionary assignment `user_data[k] = v`. -/
def setUD (m : UDMap) (k : ℕ) (v : UserData) : UDMap :=
  (k, v) :: m.filter fun p => p.1 ≠ k

/-- `user_data.pop(k, None)`. -/
def popUD (m : UDMap) (k : ℕ) : UDMap := m.filter fun p => p.1 ≠ k

/-- The order dictionary built by `request_driver_callback` before
`add_order_to_sheet` (status `"pending"`, empty driver fields). -/
def mkOrder (t : ℕ) (client_chat_id : ℕ) (client_name client_price
    pickup_loc stamp : String) : OrderRec :=
  { order_id := new_order_id t
    client_id := client_chat_id
    client_name := client_name
    pickup_loc := pickup_loc
    pickup_desc := ""
    dest_loc := ""
    dest_desc := ""
    client_price := client_price ++ " " ++ CURRENCY
    currency := CURRENCY
    status := "pending"
    driver_id := ""
    driver_name := ""
    driver_price := ""
    counter_price := ""
    timestamp := stamp }

/-- Result of `request_driver_callback`: Orders sheet after the call, the
scratch map, whether the requested driver's row was found, and the chats
messaged by `bot.send_message`. -/
structure ReqResult where
  orders : List OrderRec
  ud : UDMap
  driverFound : Bool
  notified : List ℕ
deriving DecidableEq, Repr

/-- `request_driver_callback` (order creation): build the order dictionary,
append it to the Orders sheet, then scan the Drivers sheet for the requested
chat id.  If no row matches, message the client that the driver was not
found (the appended order stays).  Otherwise store the request mapping under
the driver's id and message the driver the accept / counter / reject
buttons. -/
def request_driver_callback (t : ℕ) (driver_chat_id client_chat_id : ℕ)
    (client_name client_price pickup_loc stamp : String)
    (drivers : List DriverRec) (orders : List OrderRec) (ud : UDMap) :
    ReqResult :=
  let order := mkOrder t client_chat_id client_name client_price pickup_loc stamp
  let orders' := orders ++ [order]
  match drivers.find? fun r => r.chat_id = driver_chat_id with
  | none =>
    { orders := orders', ud := ud, driverFound := false,
      notified := [client_chat_id] }
  | some _ =>
    { orders := orders'
      ud := setUD ud driver_chat_id
        (.pendingOrder order.order_id client_chat_id client_name client_price)
      driverFound := true
      notified := [driver_chat_id] }

/-- `driver_accept_callback`: unconditionally writes
`status="accepted"`, `driver_id=f"D{driver_chat_id}"`, the responder's name
and `driver_price=f"{client_price} {CURRENCY}"` onto the first matching
order row, then messages the client.  (The read-only Drivers-sheet lookup
that decorates the client message with phone / vehicle is content-only and
not modelled.) -/
def driver_accept_callback (order_id : String) (client_chat_id : ℕ)
    (client_price : String) (driver_chat_id : ℕ) (driver_name : String)
    (orders : List OrderRec) : List OrderRec × List ℕ :=
  ((update_order_in_sheet order_id
    { status := some "accepted"
      driver_id := some ("D" ++ toString driver_chat_id)
      driver_name := some driver_name
      driver_price := some (client_price ++ " " ++ CURRENCY) } orders).2,
   [client_chat_id])

/-- `driver_reject_callback`: unconditionally writes `status="rejected"` onto
the first matching order row, then messages the client. -/
def driver_reject_callback (order_id : String) (client_chat_id : ℕ)
    (orders : List OrderRec) : List OrderRec × List ℕ :=
  ((update_order_in_sheet order_id { status := some "rejected" } orders).2,
   [client_chat_id])

/-- `driver_counter_callback`: stores the pending-counter mapping under the
responding driver's id (overwriting any previous scratch entry) and prompts
the driver, in their own chat, for the new price.  No sheet write and no
`bot.send_message` happens here. -/
def driver_counter_callback (order_id : String) (client_chat_id : ℕ)
    (client_price : String) (driver_chat_id : ℕ) (ud : UDMap) : UDMap :=
  setUD ud driver_chat_id
    (.pendingCounter order_id client_chat_id client_price)

/-- `handle_driver_text_for_counter`: a text message from a user with a
stored pending-counter mapping.  `parse` stands for Python `float(txt)`
(`none` when it raises).  An unparseable price replies with an error and
keeps the mapping; a parseable one writes `status="counter_proposed"` and
the counter price onto the order, messages the client the accept / reject
buttons, confirms to the driver, and pops the mapping.  Any other text (no
mapping, or a request mapping without `pending_counter_order`) does
nothing. -/
def handle_driver_text_for_counter (parse : String → Option ℚ)
    (user_id : ℕ) (txt : String) (ud : UDMap) (orders : List OrderRec) :
    UDMap × List OrderRec × List ℕ :=
  match ud.lookup user_id with
  | some (.pendingCounter order_id client_chat_id _) =>
    match parse txt with
    | none => (ud, orders, [user_id])
    | some proposed =>
      let orders' := (update_order_in_sheet order_id
        { status := some "counter_proposed"
          counter_price := some (toString proposed ++ " " ++ CURRENCY) }
        orders).2
      (popUD ud user_id, orders', [client_chat_id, user_id])
  | _ => (ud, orders, [])

/-- `client_accept_counter_callback`: unconditionally writes
`status="accepted"`, `driver_id=f"D{driver_chat_id}"` and the agreed price
into `driver_price` and `counter_price` on the first matching order row,
then messages the driver. -/
def client_accept_counter_callback (order_id : String) (driver_chat_id : ℕ)
    (proposed : String) (orders : List OrderRec) : List OrderRec × List ℕ :=
  ((update_order_in_sheet order_id
    { status := some "accepted"
      driver_id := some ("D" ++ toString driver_chat_id)
      driver_price := some (proposed ++ " " ++ CURRENCY)
      counter_price := some (proposed ++ " " ++ CURRENCY) } orders).2,
   [driver_chat_id])

/-- `client_reject_counter_callback`: unconditionally writes
`status="rejected"` onto the first matching order row, then messages the
driver. -/
def client_reject_counter_callback (order_id : String) (driver_chat_id : ℕ)
    (orders : List OrderRec) : List OrderRec × List ℕ :=
  ((update_order_in_sheet order_id { status := some "rejected" } orders).2,
   [driver_chat_id])

/-- A concrete stand-in for Python `float` parsing used by witnesses and
counterexamples: digit-only strings parse to their value, anything else
fails, agreeing with `float` on every input these theorems evaluate. -/
def intPrice (s : String) : Option ℚ :=
  if !s.data.isEmpty && s.data.all Char.isDigit then
    some ((s.data.foldl (fun acc c => 10 * acc + (c.toNat - 48)) 0 : ℕ) : ℚ)
  else none

/-- A concrete distance function used by witnesses and counterexamples (the
ordering claims hold for every `hav`). -/
def havZero (_ _ _ _ : ℚ) : Option ℚ := some 0

/-! ### Helper lemmas -/

theorem update_no_match (oid : String) (u : OrderUpdates) (recs : List OrderRec)
    (h : ∀ r ∈ recs, r.order_id ≠ oid) :
    update_order_in_sheet oid u recs = (false, recs) := by
  induction recs with
  | nil => rfl
  | cons r rest ih =>
    simp only [update_order_in_sheet]
    rw [if_neg (h r (List.mem_cons_self r rest))]
    rw [ih fun r' hr' => h r' (List.mem_cons_of_mem r hr')]

theorem update_first_match (oid : String) (u : OrderUpdates)
    (pre : List OrderRec) (r : OrderRec) (rest : List OrderRec)
    (hpre : ∀ r' ∈ pre, r'.order_id ≠ oid) (hr : r.order_id = oid) :
    update_order_in_sheet oid u (pre ++ r :: rest) =
      (true, pre ++ applyUpdates u r :: rest) := by
  induction pre with
  | nil => simp [update_order_in_sheet, hr]
  | cons p ps ih =>
    simp only [List.cons_append, update_order_in_sheet]
    rw [if_neg (hpre p (List.mem_cons_self p ps))]
    simp only [List.append_eq]
    rw [ih fun r' hr' => hpre r' (List.mem_cons_of_mem p hr')]

theorem lookup_setUD (m : UDMap) (k : ℕ) (v : UserData) :
    (setUD m k v).lookup k = some v := by
  simp [setUD, List.lookup]

theorem lookup_popUD (m : UDMap) (k : ℕ) : (popUD m k).lookup k = none := by
  induction m with
  | nil => rfl
  | cons p ps ih =>
    simp only [popUD, List.filter_cons] at ih ⊢
    by_cases h : p.1 = k
    · rw [if_neg (by simp [h])]
      exact ih
    · rw [if_pos (by simp [h]), List.lookup_cons]
      rw [beq_eq_false_iff_ne.mpr (Ne.symm h)]
      exact ih

theorem get_active_snd_eq_map (now : ℤ) (recs : List DriverRec) :
    (get_active_drivers_records true now recs).2 =
      recs.map (demoteStale now) := by
  induction recs with
  | nil => rfl
  | cons r rest ih =>
    simp only [get_active_drivers_records, List.map_cons]
    by_cases h1 : isYes r.active && decide (minutesDiff now r ≤ INACTIVE_THRESHOLD)
    · have h2 : demoteStale now r = r := by
        simp only [Bool.and_eq_true, decide_eq_true_eq] at h1
        simp [demoteStale, h1.1, not_lt.mpr h1.2]
      simp [h1, h2, ih]
    · by_cases h3 : isYes r.active && decide (INACTIVE_THRESHOLD < minutesDiff now r)
      · have h2 : demoteStale now r = { r with active := "no" } := by
          simp [demoteStale, h3]
        simp [h1, h3, h2, ih]
      · have h2 : demoteStale now r = r := by simp [demoteStale, h3]
        simp [h1, h3, h2, ih]

theorem mem_get_active_fst (now : ℤ) (recs : List DriverRec) (d : DriverRec)
    (hd : d ∈ (get_active_drivers_records true now recs).1) :
    isYes d.active = true ∧ minutesDiff now d ≤ INACTIVE_THRESHOLD := by
  induction recs with
  | nil => cases hd
  | cons r rest ih =>
    simp only [get_active_drivers_records] at hd
    by_cases h1 : isYes r.active && decide (minutesDiff now r ≤ INACTIVE_THRESHOLD)
    · rw [if_pos h1] at hd
      rcases List.mem_cons.mp hd with h | h
      · subst h
        simpa [Bool.and_eq_true, decide_eq_true_eq] using h1
      · exact ih h
    · rw [if_neg h1] at hd
      by_cases h3 : isYes r.active && decide (INACTIVE_THRESHOLD < minutesDiff now r)
          && true
      · rw [if_pos h3] at hd
        exact ih hd
      · rw [if_neg h3] at hd
        exact ih hd

theorem get_active_fst_complete (now : ℤ) (recs : List DriverRec)
    (d : DriverRec) (hd : d ∈ recs) (ha : isYes d.active = true)
    (hfresh : minutesDiff now d ≤ INACTIVE_THRESHOLD) :
    d ∈ (get_active_drivers_records true now recs).1 := by
  induction recs with
  | nil => cases hd
  | cons r rest ih =>
    simp only [get_active_drivers_records]
    rcases List.mem_cons.mp hd with h | h
    · subst h
      rw [if_pos (by simp [ha, hfresh])]
      exact List.mem_cons_self _ _
    · by_cases h1 : isYes r.active && decide (minutesDiff now r ≤ INACTIVE_THRESHOLD)
      · rw [if_pos h1]
        exact List.mem_cons_of_mem _ (ih h)
      · rw [if_neg h1]
        by_cases h3 : isYes r.active && decide (INACTIVE_THRESHOLD < minutesDiff now r)
            && true
        · rw [if_pos h3]; exact ih h
        · rw [if_neg h3]; exact ih h

theorem distLE_trans (a b c : DriverRec × Option ℚ)
    (hab : distLE a b) (hbc : distLE b c) : distLE a c := by
  simp only [distLE, decide_eq_true_eq] at hab hbc ⊢
  exact le_trans hab hbc

theorem distLE_total (a b : DriverRec × Option ℚ) : distLE a b || distLE b a := by
  simp only [distLE, Bool.or_eq_true, decide_eq_true_eq]
  exact le_total (distKey a) (distKey b)

theorem mem_filteredCandidates (hav : ℚ → ℚ → ℚ → ℚ → Option ℚ)
    (loc : Option (ℚ × ℚ)) (nation vtype gender : Option String)
    (cands : List DriverRec) (x : DriverRec × Option ℚ)
    (hx : x ∈ filteredCandidates hav loc nation vtype gender cands) :
    x.1 ∈ cands ∧ x.1.latitude ≠ none ∧ x.1.longitude ≠ none := by
  rcases List.mem_filterMap.mp hx with ⟨d, hd, hf⟩
  by_cases hfil : (filterMatch nation d.nationality &&
      filterMatch vtype d.vehicle_type && filterMatch gender d.gender : Bool)
  · rw [if_pos hfil] at hf
    cases hla : d.latitude with
    | none => rw [hla] at hf; cases hf
    | some la =>
      cases hlo : d.longitude with
      | none => rw [hla, hlo] at hf; cases hf
      | some lo =>
        rw [hla, hlo] at hf
        have hx1 : x.1 = d := by
          cases hf
          rfl
        rw [hx1, hla, hlo]
        exact ⟨hd, by simp, by simp⟩
  · rw [if_neg hfil] at hf
    cases hf

theorem toDigitsCore_eq_digits :
    ∀ (fuel n : ℕ) (ds : List Char), 0 < n → n < fuel →
    Nat.toDigitsCore 10 fuel n ds =
      ((Nat.digits 10 n).map Nat.digitChar).reverse ++ ds := by
  intro fuel
  induction fuel with
  | zero => intro n ds _ hf; omega
  | succ f ih =>
    intro n ds hn _
    simp only [Nat.toDigitsCore]
    by_cases h0 : n / 10 = 0
    · rw [if_pos h0]
      have hlt : n < 10 := (Nat.div_eq_zero_iff (by norm_num)).mp h0
      rw [Nat.digits_def' (by norm_num : (1:ℕ) < 10) hn, h0]
      simp [Nat.mod_eq_of_lt hlt]
    · rw [if_neg h0]
      have hq : 0 < n / 10 := Nat.pos_of_ne_zero h0
      have hlt : n / 10 < f := by
        have := Nat.div_lt_self hn (by norm_num : 1 < 10)
        omega
      rw [ih (n / 10) (Nat.digitChar (n % 10) :: ds) hq hlt]
      rw [Nat.digits_def' (by norm_num : (1:ℕ) < 10) hn]
      simp

theorem repr_eq_digits (n : ℕ) (hn : 0 < n) :
    Nat.repr n = (((Nat.digits 10 n).map Nat.digitChar).reverse).asString := by
  unfold Nat.repr Nat.toDigits
  rw [toDigitsCore_eq_digits (n + 1) n [] hn (by omega)]
  simp

theorem digitChar_inj_lt :
    ∀ a, a < 10 → ∀ b, b < 10 → Nat.digitChar a = Nat.digitChar b → a = b := by
  decide

theorem map_digitChar_inj :
    ∀ (l1 l2 : List ℕ), (∀ x ∈ l1, x < 10) → (∀ x ∈ l2, x < 10) →
    l1.map Nat.digitChar = l2.map Nat.digitChar → l1 = l2
  | [], [], _, _, _ => rfl
  | [], _ :: _, _, _, h => by cases h
  | _ :: _, [], _, _, h => by cases h
  | a :: l1, b :: l2, h1, h2, h => by
    simp only [List.map_cons, List.cons.injEq] at h
    have hab : a = b :=
      digitChar_inj_lt a (h1 a (List.mem_cons_self a l1))
        b (h2 b (List.mem_cons_self b l2)) h.1
    have : l1 = l2 :=
      map_digitChar_inj l1 l2
        (fun x hx => h1 x (List.mem_cons_of_mem a hx))
        (fun x hx => h2 x (List.mem_cons_of_mem b hx)) h.2
    rw [hab, this]

theorem repr_pos_ne_zero (n : ℕ) (hn : 0 < n) : Nat.repr n ≠ Nat.repr 0 := by
  intro h
  rw [repr_eq_digits n hn] at h
  have h0 : Nat.repr 0 = List.asString ['0'] := rfl
  rw [h0] at h
  have hd : ((Nat.digits 10 n).map Nat.digitChar).reverse = ['0'] :=
    List.asString_inj.mp h
  have hmap : (Nat.digits 10 n).map Nat.digitChar = ['0'] := by
    have := congrArg List.reverse hd
    simpa using this
  have hdig : Nat.digits 10 n = [0] := by
    have h9 : ((0:ℕ) :: []).map Nat.digitChar = ['0'] := rfl
    exact map_digitChar_inj (Nat.digits 10 n) [0]
      (fun x hx => Nat.digits_lt_base (by norm_num) hx)
      (by intro x hx; simp at hx; omega) (hmap.trans h9.symm)
  have h1 := Nat.ofDigits_digits 10 n
  rw [hdig] at h1
  simp [Nat.ofDigits] at h1
  omega

theorem nat_repr_inj (m n : ℕ) (h : Nat.repr m = Nat.repr n) : m = n := by
  rcases Nat.eq_zero_or_pos m with hm | hm
  · rcases Nat.eq_zero_or_pos n with hn | hn
    · omega
    · subst hm
      exact absurd h.symm (repr_pos_ne_zero n hn)
  · rcases Nat.eq_zero_or_pos n with hn | hn
    · subst hn
      exact absurd h (repr_pos_ne_zero m hm)
    · rw [repr_eq_digits m hm, repr_eq_digits n hn] at h
      have hd := List.asString_inj.mp h
      have hmap : (Nat.digits 10 m).map Nat.digitChar =
          (Nat.digits 10 n).map Nat.digitChar := by
        have := congrArg List.reverse hd
        simpa using this
      have hdig := map_digitChar_inj _ _
        (fun x hx => Nat.digits_lt_base (by norm_num) hx)
        (fun x hx => Nat.digits_lt_base (by norm_num) hx) hmap
      have := congrArg (Nat.ofDigits 10) hdig
      rwa [Nat.ofDigits_digits, Nat.ofDigits_digits] at this

theorem new_order_id_inj (t1 t2 : ℕ) (h : new_order_id t1 = new_order_id t2) :
    t1 = t2 := by
  have hdata := congrArg String.data h
  simp only [new_order_id, String.data_append] at hdata
  have hrepr : (toString t1 : String).data = (toString t2 : String).data := by
    simpa using hdata
  exact nat_repr_inj t1 t2 (String.ext hrepr)

/-! ### Sample records for witnesses and counterexamples -/

/-- A concrete Orders-sheet row in the terminal status `"accepted"`. -/
def oA : OrderRec :=
  { order_id := "O1", client_id := 1, client_name := "Alice",
    pickup_loc := "", pickup_desc := "", dest_loc := "", dest_desc := "",
    client_price := "25 SAR", currency := "SAR", status := "accepted",
    driver_id := "D1", driver_name := "Dan", driver_price := "25 SAR",
    counter_price := "", timestamp := "T0" }

/-- A concrete pending order whose `driver_id` column holds `"D1"`. -/
def oP : OrderRec := { oA with status := "pending", driver_price := "" }

/-- A second concrete order row with a different id. -/
def oB : OrderRec := { oA with order_id := "O2", status := "pending" }

/-- A concrete Drivers-sheet row, flagged active, last update at minute 0
(stale once `now` is past minute 10). -/
def dStale : DriverRec :=
  { driver_id := "D100", driver_name := "Sam", chat_id := 7, age := "30",
    nationality := "sa", phone := "555", vehicle_type := "car",
    vehicle_make := "m", vehicle_year := "2020", gender := "m",
    latitude := some 24, longitude := some 46, last_update := some 0,
    active := "yes" }

/-- A concrete active driver row, fresh at `now = 100`. -/
def dFresh : DriverRec := { dStale with chat_id := 8, last_update := some 95 }

/-- A driver row exactly as `register_driver` appends it: active, fresh
(`last_update = now = 100`), but with empty latitude / longitude cells
(no position reported yet, so `float` on them raises). -/
def dNoPos : DriverRec :=
  { dStale with
    chat_id := 9
    latitude := none
    longitude := none
    last_update := some 100 }

/-! ### Claims -/

/-- C10: `update_order_in_sheet` modifies at most the status, driver_id,
driver_name, driver_price and counter_price columns — exactly those present
in `updates` — of the first row whose order_id matches; every other field of
that row, every other row, and (when no row matches, returning `False`) the
whole Orders sheet are unchanged. -/
theorem C10_update_order_frame (oid : String) (u : OrderUpdates)
    (recs : List OrderRec) :
    ((∀ r ∈ recs, r.order_id ≠ oid) →
      update_order_in_sheet oid u recs = (false, recs)) ∧
    (∀ (pre : List OrderRec) (r : OrderRec) (rest : List OrderRec),
      recs = pre ++ r :: rest → (∀ r' ∈ pre, r'.order_id ≠ oid) →
      r.order_id = oid →
      update_order_in_sheet oid u recs =
        (true, pre ++ applyUpdates u r :: rest)) ∧
    (∀ r : OrderRec,
      (applyUpdates u r).order_id = r.order_id ∧
      (applyUpdates u r).client_id = r.client_id ∧
      (applyUpdates u r).client_name = r.client_name ∧
      (applyUpdates u r).pickup_loc = r.pickup_loc ∧
      (applyUpdates u r).pickup_desc = r.pickup_desc ∧
      (applyUpdates u r).dest_loc = r.dest_loc ∧
      (applyUpdates u r).dest_desc = r.dest_desc ∧
      (applyUpdates u r).client_price = r.client_price ∧
      (applyUpdates u r).currency = r.currency ∧
      (applyUpdates u r).timestamp = r.timestamp ∧
      (u.status = none → (applyUpdates u r).status = r.status) ∧
      (∀ s, u.status = some s → (applyUpdates u r).status = s) ∧
      (u.driver_id = none → (applyUpdates u r).driver_id = r.driver_id) ∧
      (∀ s, u.driver_id = some s → (applyUpdates u r).driver_id = s) ∧
      (u.driver_name = none → (applyUpdates u r).driver_name = r.driver_name) ∧
      (∀ s, u.driver_name = some s → (applyUpdates u r).driver_name = s) ∧
      (u.driver_price = none → (applyUpdates u r).driver_price = r.driver_price) ∧
      (∀ s, u.driver_price = some s → (applyUpdates u r).driver_price = s) ∧
      (u.counter_price = none → (applyUpdates u r).counter_price = r.counter_price) ∧
      (∀ s, u.counter_price = some s → (applyUpdates u r).counter_price = s)) := by
  refine ⟨update_no_match oid u recs, ?_, ?_⟩
  · intro pre r rest hEq hpre hr
    rw [hEq]
    exact update_first_match oid u pre r rest hpre hr
  · intro r
    refine ⟨rfl, rfl, rfl, rfl, rfl, rfl, rfl, rfl, rfl, rfl, ?_, ?_, ?_, ?_,
      ?_, ?_, ?_, ?_, ?_, ?_⟩ <;>
      first
        | (intro h; simp [applyUpdates, h])
        | (intro s h; simp [applyUpdates, h])

/-- Witness for C10: a two-row sheet where the second row matches; the first
row is untouched and only the status column of the match changes. -/
theorem C10_witness :
    update_order_in_sheet "O2" { status := some "rejected" } [oA, oB] =
      (true, [oA, { oB with status := "rejected" }]) := by
  have h := (C10_update_order_frame "O2" { status := some "rejected" }
    [oA, oB]).2.1 [oA] oB [] rfl (by decide) rfl
  simpa using h

/-- Counterexample to C1: the order `oA` is already in the terminal status
`"accepted"`, yet `driver_reject_callback` neither fails nor leaves it
unchanged — it overwrites the status with `"rejected"` and messages the
client (chat 5). -/
theorem C1_counterexample :
    oA.status = "accepted" ∧
    (driver_reject_callback "O1" 5 [oA]).1 ≠ [oA] ∧
    (driver_reject_callback "O1" 5 [oA]).1.map OrderRec.status = ["rejected"] ∧
    (driver_reject_callback "O1" 5 [oA]).2 = [5] := by
  refine ⟨rfl, by decide, rfl, rfl⟩

/-- C1 (amended): the negotiation callbacks perform no status check at all.
Applied to an order whose stored status is already terminal (`accepted` or
`rejected`), each of the five operations behaves exactly as on a fresh
order: the driver accept / reject and client counter-accept / counter-reject
callbacks overwrite the first matching row and message the counterparty, and
the driver counter callback installs its pending-counter mapping — there is
no `InvalidState` outcome and the record is mutated, not preserved. -/
theorem C1_terminal_ops_mutate (pre : List OrderRec) (r : OrderRec)
    (rest : List OrderRec) (c d : ℕ) (price nm : String) (ud : UDMap)
    (hpre : ∀ r' ∈ pre, r'.order_id ≠ r.order_id)
    (_hterm : r.status = "accepted" ∨ r.status = "rejected") :
    driver_accept_callback r.order_id c price d nm (pre ++ r :: rest) =
      (pre ++ { r with
        status := "accepted"
        driver_id := "D" ++ toString d
        driver_name := nm
        driver_price := price ++ " " ++ CURRENCY } :: rest, [c]) ∧
    driver_reject_callback r.order_id c (pre ++ r :: rest) =
      (pre ++ { r with status := "rejected" } :: rest, [c]) ∧
    (driver_counter_callback r.order_id c price d ud).lookup d =
      some (.pendingCounter r.order_id c price) ∧
    client_accept_counter_callback r.order_id d price (pre ++ r :: rest) =
      (pre ++ { r with
        status := "accepted"
        driver_id := "D" ++ toString d
        driver_price := price ++ " " ++ CURRENCY
        counter_price := price ++ " " ++ CURRENCY } :: rest, [d]) ∧
    client_reject_counter_callback r.order_id d (pre ++ r :: rest) =
      (pre ++ { r with status := "rejected" } :: rest, [d]) := by
  refine ⟨?_, ?_, lookup_setUD ud d _, ?_, ?_⟩ <;>
    simp only [driver_accept_callback, driver_reject_callback,
      client_accept_counter_callback, client_reject_counter_callback,
      update_first_match _ _ pre r rest hpre rfl] <;>
    rfl

/-- Witness for C1: the accepted order `oA` is rejected anyway. -/
theorem C1_witness :
    driver_reject_callback "O1" 5 [oA] =
      ([{ oA with status := "rejected" }], [5]) := by
  have h := C1_terminal_ops_mutate [] oA [] 5 2 "30" "Eve" []
    (by simp) (Or.inl rfl)
  simpa using h.2.1

/-- Counterexample to C2: the order `oP` carries `driver_id = "D1"`, the
responder would be driver `D2`, yet `driver_accept_callback` does not fail
`Unauthorized`: it mutates the row, accepting the order and overwriting its
driver_id with the responder's. -/
theorem C2_counterexample :
    oP.driver_id = "D1" ∧
    (driver_accept_callback "O1" 5 "25" 2 "Eve" [oP]).1 ≠ [oP] ∧
    (driver_accept_callback "O1" 5 "25" 2 "Eve" [oP]).1.map OrderRec.status =
      ["accepted"] ∧
    (driver_accept_callback "O1" 5 "25" 2 "Eve" [oP]).1.map OrderRec.driver_id =
      ["D2"] := by
  refine ⟨rfl, by decide, by decide, by decide⟩

/-- C2 (amended): `driver_accept_callback` performs no authorization check.
For every responding chat id `d` — in particular any `d` other than the
order's stored driver — the call succeeds, setting the first matching row's
status to `accepted`, overwriting driver_id with `"D" ++ d`, driver_name
with the responder's name and driver_price with the callback-payload price,
and messaging the client. -/
theorem C2_accept_no_auth (pre : List OrderRec) (r : OrderRec)
    (rest : List OrderRec) (c d : ℕ) (price nm : String)
    (hpre : ∀ r' ∈ pre, r'.order_id ≠ r.order_id) :
    driver_accept_callback r.order_id c price d nm (pre ++ r :: rest) =
      (pre ++ { r with
        status := "accepted"
        driver_id := "D" ++ toString d
        driver_name := nm
        driver_price := price ++ " " ++ CURRENCY } :: rest, [c]) := by
  simp only [driver_accept_callback,
    update_first_match _ _ pre r rest hpre rfl]
  rfl

/-- Witness for C2: responder 2 accepts the order stored for driver D1. -/
theorem C2_witness :
    driver_accept_callback "O1" 5 "25" 2 "Eve" [oP] =
      ([{ oP with
        status := "accepted"
        driver_id := "D2"
        driver_name := "Eve"
        driver_price := "25 SAR" }], [5]) := by
  have h := C2_accept_no_auth [] oP [] 5 2 "25" "Eve" (by simp)
  simpa using h

/-- Counterexample to C3: with an empty Drivers sheet the requested driver
does not resolve, the client is messaged an error — but the order has
already been appended, so the Orders store is NOT unchanged. -/
theorem C3_counterexample :
    (request_driver_callback 100 7 1 "Alice" "25" "" "T0" [] [] []).driverFound
      = false ∧
    (request_driver_callback 100 7 1 "Alice" "25" "" "T0" [] [] []).orders ≠ [] ∧
    (request_driver_callback 100 7 1 "Alice" "25" "" "T0" [] [] []).orders =
      [mkOrder 100 1 "Alice" "25" "" "T0"] := by
  refine ⟨rfl, by decide, rfl⟩

/-- C3 (amended): when the requested driver id does not resolve to any
Drivers-sheet row, `request_driver_callback` surfaces an error to the client
but the order has already been persisted: the Orders store gains exactly the
new pending order, and the scratch map is untouched. -/
theorem C3_create_order_persists_on_unknown_driver
    (t dch c : ℕ) (nm price ploc stamp : String) (drivers : List DriverRec)
    (orders : List OrderRec) (ud : UDMap)
    (hnone : drivers.find? (fun r => decide (r.chat_id = dch)) = none) :
    request_driver_callback t dch c nm price ploc stamp drivers orders ud =
      { orders := orders ++ [mkOrder t c nm price ploc stamp],
        ud := ud, driverFound := false, notified := [c] } := by
  simp [request_driver_callback, hnone]

/-- Witness for C3: the empty Drivers sheet resolves nobody. -/
theorem C3_witness :
    request_driver_callback 100 7 1 "Alice" "25" "" "T0" [] [] [] =
      { orders := [mkOrder 100 1 "Alice" "25" "" "T0"],
        ud := [], driverFound := false, notified := [1] } := by
  have h := C3_create_order_persists_on_unknown_driver 100 7 1 "Alice" "25"
    "" "T0" [] [] [] rfl
  simpa using h

/-- The Orders sheet after two client requests issued within the same epoch
second (second 100): first client 1, then client 2, both targeting the
driver with chat id 7. -/
def twoReqOrders : List OrderRec :=
  (request_driver_callback 100 7 2 "Bob" "25" "" "T0" [dStale]
    (request_driver_callback 100 7 1 "Alice" "25" "" "T0" [dStale] [] []).orders
    (request_driver_callback 100 7 1 "Alice" "25" "" "T0" [dStale] [] []).ud).orders

/-- Counterexample to C7: two distinct `createOrder` calls in the same epoch
second persist two distinct order records carrying the same generated id
`"O100"`, so that id identifies two records in the store. -/
theorem C7_counterexample :
    twoReqOrders.map OrderRec.order_id = ["O100", "O100"] ∧
    twoReqOrders.map OrderRec.client_id = [1, 2] := by
  exact ⟨rfl, rfl⟩

/-- C7 (amended): the generated order id is `"O"` followed by the creation
epoch second, so ids are unique only across distinct seconds: two
`createOrder` calls at distinct integer timestamps get distinct ids (while
calls within the same second collide, as the counterexample shows). -/
theorem C7_ids_distinct_across_seconds (t1 t2 : ℕ) (h : t1 ≠ t2) :
    new_order_id t1 ≠ new_order_id t2 :=
  fun he => h (new_order_id_inj t1 t2 he)

/-- Witness for C7: seconds 100 and 101 give distinct ids. -/
theorem C7_witness : new_order_id 100 ≠ new_order_id 101 :=
  C7_ids_distinct_across_seconds 100 101 (by decide)

/-- Counterexample to C8: the selected driver's row (`dStale`, driver id
`"D100"`) is known, yet the created order's driver_id column is the empty
string — not the selected driver's id — and a later `driver_accept_callback`
from chat 9 changes it to `"D9"`. -/
theorem C8_counterexample :
    (request_driver_callback 100 7 1 "Alice" "25" "" "T0" [dStale] [] []).orders.map
      OrderRec.driver_id = [""] ∧
    dStale.driver_id = "D100" ∧
    (driver_accept_callback "O100" 1 "25" 9 "Eve"
      (request_driver_callback 100 7 1 "Alice" "25" "" "T0" [dStale] [] []).orders).1.map
      OrderRec.driver_id = ["D9"] := by
  exact ⟨rfl, rfl, rfl⟩

/-- C8 (amended): the order is created with an EMPTY driver_id column (the
selected driver's identity lives only in the callback payloads), and the
field is later written by the responding operations: `driver_accept_callback`
and `client_accept_counter_callback` each overwrite driver_id of the first
matching row with `"D"` followed by the responder's (respectively the
counter-offering driver's) chat id. -/
theorem C8_driver_id_written_later (t c : ℕ)
    (nm price ploc stamp : String) (pre : List OrderRec) (r : OrderRec)
    (rest : List OrderRec) (c2 d : ℕ) (price2 nm2 : String)
    (hpre : ∀ r' ∈ pre, r'.order_id ≠ r.order_id) :
    (mkOrder t c nm price ploc stamp).driver_id = "" ∧
    ((driver_accept_callback r.order_id c2 price2 d nm2
      (pre ++ r :: rest)).1.map OrderRec.driver_id) =
      (pre.map OrderRec.driver_id) ++ ("D" ++ toString d) ::
        (rest.map OrderRec.driver_id) ∧
    ((client_accept_counter_callback r.order_id d price2
      (pre ++ r :: rest)).1.map OrderRec.driver_id) =
      (pre.map OrderRec.driver_id) ++ ("D" ++ toString d) ::
        (rest.map OrderRec.driver_id) := by
  refine ⟨rfl, ?_, ?_⟩ <;>
    simp [driver_accept_callback, client_accept_counter_callback,
      update_first_match _ _ pre r rest hpre rfl, applyUpdates]

/-- Witness for C8: a fresh order next to an accept from chat 2. -/
theorem C8_witness :
    (mkOrder 100 1 "Alice" "25" "" "T0").driver_id = "" ∧
    ((driver_accept_callback "O1" 5 "25" 2 "Eve" [oP]).1.map
      OrderRec.driver_id) = ["D2"] := by
  have h := C8_driver_id_written_later 100 1 "Alice" "25" "" "T0"
    [] oP [] 5 2 "25" "Eve" (by simp)
  exact ⟨h.1, by simpa using h.2.1⟩

/-- C4: a `queryActive` call (`get_active_drivers_records` with
`mark_inactive = True`).  (i) The post-query Drivers sheet is the row-wise
demotion of the input: every row found flagged active but stale is persisted
with `active = "no"`, all other rows are untouched.  (ii) Every stale row
(`lastUpdate + window < now`, missing / unparseable timestamps counting as
9999 minutes old) is excluded from the returned list and its stored activity
flag afterwards is not active.  (iii) Every row flagged active whose last
update is within the window is returned. -/
theorem C4_query_active (now : ℤ) (recs : List DriverRec) :
    (get_active_drivers_records true now recs).2 =
      recs.map (demoteStale now) ∧
    (∀ d ∈ recs, INACTIVE_THRESHOLD < minutesDiff now d →
      d ∉ (get_active_drivers_records true now recs).1 ∧
      isYes (demoteStale now d).active = false) ∧
    (∀ d ∈ recs, isYes d.active = true →
      minutesDiff now d ≤ INACTIVE_THRESHOLD →
      d ∈ (get_active_drivers_records true now recs).1) := by
  refine ⟨get_active_snd_eq_map now recs, ?_, ?_⟩
  · intro d _ hstale
    constructor
    · intro hmem
      have h := mem_get_active_fst now recs d hmem
      exact absurd h.2 (not_le.mpr hstale)
    · by_cases ha : isYes d.active
      · have hrw : demoteStale now d = { d with active := "no" } := by
          simp [demoteStale, ha, hstale]
        rw [hrw]
        show isYes "no" = false
        decide
      · simp only [Bool.not_eq_true] at ha
        simp [demoteStale, ha]
  · intro d hd ha hfresh
    exact get_active_fst_complete now recs d hd ha hfresh

/-- Witness for C4: at `now = 100`, the stale row `dStale` (last update at
minute 0) is dropped and demoted while the fresh row `dFresh` is returned. -/
theorem C4_witness :
    (get_active_drivers_records true 100 [dStale, dFresh]).2 =
      [{ dStale with active := "no" }, dFresh] ∧
    dStale ∉ (get_active_drivers_records true 100 [dStale, dFresh]).1 ∧
    dFresh ∈ (get_active_drivers_records true 100 [dStale, dFresh]).1 := by
  have h := C4_query_active 100 [dStale, dFresh]
  refine ⟨?_, ?_, ?_⟩
  · rw [h.1]
    decide
  · exact (h.2.1 dStale (by decide) (by decide)).1
  · exact h.2.2 dFresh (by decide) (by decide) (by decide)

/-- Counterexample to C5: `dNoPos` is an Active candidate (fresh, flagged
active) with missing coordinates, and a client location is supplied — yet it
is NOT included after the valid-distance candidates: the `float` conversion
raises and the row is dropped entirely, so the result is empty. -/
theorem C5_counterexample :
    dNoPos ∈ (get_active_drivers_records true 100 [dNoPos]).1 ∧
    (filter_and_sort_drivers havZero (some (24, 46)) none none none 100
      [dNoPos]).1 = [] := by
  constructor
  · decide
  · have h : filteredCandidates havZero (some (24, 46)) none none none
        (get_active_drivers_records true 100 [dNoPos]).1 = [] := by decide
    simp [filter_and_sort_drivers, h]

/-- C5 (amended): with a client location, the result is the stable ascending
sort of the filtered candidates by distance key, truncated to the limit:
(i) the returned sequence is exactly the truncated merge sort; (ii) it is
sorted by non-decreasing distance key (absent distances keyed 99999);
(iii) every returned candidate has valid (parseable) coordinates — rows with
invalid or missing coordinates are dropped by the filter, NOT appended after
the valid ones; (iv) ties (and any key-ordered pair) of the pre-sort
sequence survive in their original relative order (sort stability); (v) at
most `MAX_DISPLAY_DRIVERS` candidates are returned. -/
theorem C5_sorted_with_location (hav : ℚ → ℚ → ℚ → ℚ → Option ℚ)
    (cl : ℚ × ℚ) (nation vtype gender : Option String) (now : ℤ)
    (recs : List DriverRec) :
    (filter_and_sort_drivers hav (some cl) nation vtype gender now recs).1 =
      ((filteredCandidates hav (some cl) nation vtype gender
        (get_active_drivers_records true now recs).1).mergeSort
        distLE).take MAX_DISPLAY_DRIVERS ∧
    List.Pairwise (fun a b => distKey a ≤ distKey b)
      (filter_and_sort_drivers hav (some cl) nation vtype gender now recs).1 ∧
    (∀ x ∈ (filter_and_sort_drivers hav (some cl) nation vtype gender now
      recs).1, x.1.latitude ≠ none ∧ x.1.longitude ≠ none) ∧
    (∀ a b : DriverRec × Option ℚ, distKey a ≤ distKey b →
      [a, b].Sublist (filteredCandidates hav (some cl) nation vtype gender
        (get_active_drivers_records true now recs).1) →
      [a, b].Sublist ((filteredCandidates hav (some cl) nation vtype gender
        (get_active_drivers_records true now recs).1).mergeSort distLE)) ∧
    (filter_and_sort_drivers hav (some cl) nation vtype gender now
      recs).1.length ≤ MAX_DISPLAY_DRIVERS := by
  refine ⟨rfl, ?_, ?_, ?_, ?_⟩
  · have hs := List.sorted_mergeSort distLE_trans distLE_total
      (filteredCandidates hav (some cl) nation vtype gender
        (get_active_drivers_records true now recs).1)
    have ht := List.Pairwise.sublist (List.take_sublist MAX_DISPLAY_DRIVERS _) hs
    exact ht.imp fun hab => by
      simpa [distLE, decide_eq_true_eq] using hab
  · intro x hx
    have hx1 : x ∈ (filteredCandidates hav (some cl) nation vtype gender
        (get_active_drivers_records true now recs).1).mergeSort distLE :=
      (List.take_sublist MAX_DISPLAY_DRIVERS _).mem hx
    have hx2 := List.mem_mergeSort.mp hx1
    exact (mem_filteredCandidates hav (some cl) nation vtype gender _ x hx2).2
  · intro a b hab hsub
    exact List.pair_sublist_mergeSort distLE_trans distLE_total
      (by simpa [distLE, decide_eq_true_eq] using hab) hsub
  · exact List.length_take_le _ _

/-- Witness for C5: at `now = 100`, the store `[dStale, dFresh]` yields the
single candidate `(dFresh, 0)` (under the constant distance function); it is
sorted, has valid coordinates, and respects the limit. -/
theorem C5_witness :
    (filter_and_sort_drivers havZero (some (24, 46)) none none none 100
      [dStale, dFresh]).1 = [(dFresh, some 0)] ∧
    dFresh.latitude ≠ none ∧ dFresh.longitude ≠ none ∧
    List.Pairwise (fun a b => distKey a ≤ distKey b)
      (filter_and_sort_drivers havZero (some (24, 46)) none none none 100
        [dStale, dFresh]).1 ∧
    (filter_and_sort_drivers havZero (some (24, 46)) none none none 100
      [dStale, dFresh]).1.length ≤ MAX_DISPLAY_DRIVERS := by
  have h := C5_sorted_with_location havZero (24, 46) none none none 100
    [dStale, dFresh]
  have hfc : filteredCandidates havZero (some (24, 46)) none none none
      (get_active_drivers_records true 100 [dStale, dFresh]).1 =
      [(dFresh, some 0)] := by decide
  have heval : (filter_and_sort_drivers havZero (some (24, 46)) none none
      none 100 [dStale, dFresh]).1 = [(dFresh, some 0)] := by
    rw [h.1, hfc]
    simp [MAX_DISPLAY_DRIVERS]
  have hin : (dFresh, some (0 : ℚ)) ∈ (filter_and_sort_drivers havZero
      (some (24, 46)) none none none 100 [dStale, dFresh]).1 := by
    rw [heval]
    exact List.mem_cons_self _ _
  have hmem := h.2.2.1 (dFresh, some 0) hin
  exact ⟨heval, hmem.1, hmem.2, h.2.1, h.2.2.2.2⟩

/-- Counterexample to C6: `dNoPos` is exactly a driver registered but with
no position reported yet (`register_driver` writes empty coordinate cells,
a fresh `last_update` and an active flag); it is a currently Active driver,
yet a no-filter, no-location `filter_and_sort_drivers` call returns the
empty list instead of including it. -/
theorem C6_counterexample :
    dNoPos ∈ (get_active_drivers_records true 100 [dNoPos]).1 ∧
    (filter_and_sort_drivers havZero none none none none 100 [dNoPos]).1
      = [] := by
  exact ⟨by decide, by decide⟩

/-- C6 (amended): with no filters and no client location, the result is the
Active candidates restricted to those with valid (parseable) numeric
coordinates — drivers that have not yet reported a position are dropped, not
included — each paired with an absent distance, in directory iteration
order, truncated to `MAX_DISPLAY_DRIVERS`. -/
theorem C6_no_loc_no_filters (hav : ℚ → ℚ → ℚ → ℚ → Option ℚ) (now : ℤ)
    (recs : List DriverRec) :
    (filter_and_sort_drivers hav none none none none now recs).1 =
      ((get_active_drivers_records true now recs).1.filterMap fun d =>
        match d.latitude, d.longitude with
        | some _, some _ => some (d, (none : Option ℚ))
        | _, _ => none).take MAX_DISPLAY_DRIVERS ∧
    (∀ d ∈ (get_active_drivers_records true now recs).1,
      d.latitude ≠ none → d.longitude ≠ none →
      ((get_active_drivers_records true now recs).1.filterMap fun d =>
        match d.latitude, d.longitude with
        | some _, some _ => some (d, (none : Option ℚ))
        | _, _ => none).length ≤ MAX_DISPLAY_DRIVERS →
      (d, (none : Option ℚ)) ∈
        (filter_and_sort_drivers hav none none none none now recs).1) := by
  refine ⟨rfl, ?_⟩
  intro d hd hla hlo hlen
  have hf : (match d.latitude, d.longitude with
      | some _, some _ => some (d, (none : Option ℚ))
      | _, _ => none) = some (d, (none : Option ℚ)) := by
    cases hl1 : d.latitude with
    | none => exact absurd hl1 hla
    | some la =>
      cases hl2 : d.longitude with
      | none => exact absurd hl2 hlo
      | some lo => rfl
  have hmem : (d, (none : Option ℚ)) ∈
      ((get_active_drivers_records true now recs).1.filterMap fun d =>
        match d.latitude, d.longitude with
        | some _, some _ => some (d, (none : Option ℚ))
        | _, _ => none) :=
    List.mem_filterMap.mpr ⟨d, hd, hf⟩
  show (d, (none : Option ℚ)) ∈
    ((get_active_drivers_records true now recs).1.filterMap fun d =>
      match d.latitude, d.longitude with
      | some _, some _ => some (d, (none : Option ℚ))
      | _, _ => none).take MAX_DISPLAY_DRIVERS
  rw [List.take_of_length_le hlen]
  exact hmem

/-- Witness for C6: the one-driver store `[dFresh]` (valid coordinates)
yields exactly `[(dFresh, none)]`, containing the Active driver. -/
theorem C6_witness :
    (filter_and_sort_drivers havZero none none none none 100 [dFresh]).1 =
      [(dFresh, none)] ∧
    (dFresh, (none : Option ℚ)) ∈
      (filter_and_sort_drivers havZero none none none none 100 [dFresh]).1 := by
  have h := C6_no_loc_no_filters havZero 100 [dFresh]
  refine ⟨by decide, ?_⟩
  exact h.2 dFresh (by decide) (by decide) (by decide) (by decide)

/-- Counterexample to C9: after `driver_counter_callback` installs driver
7's pending-counter record, a next text reply `"abc"` from driver 7 does
NOT consume and clear it: the reply only produces an error notice, the
record is still present, and the Orders sheet is untouched. -/
theorem C9_counterexample :
    (driver_counter_callback "O1" 5 "25" 7 []).lookup 7 =
      some (.pendingCounter "O1" 5 "25") ∧
    handle_driver_text_for_counter intPrice 7 "abc"
      (driver_counter_callback "O1" 5 "25" 7 []) [oP] =
      (driver_counter_callback "O1" 5 "25" 7 [], [oP], [7]) ∧
    (handle_driver_text_for_counter intPrice 7 "abc"
      (driver_counter_callback "O1" 5 "25" 7 []) [oP]).1.lookup 7 =
      some (.pendingCounter "O1" 5 "25") := by
  exact ⟨by decide, by decide, by decide⟩

/-- C9 (amended): `driver_counter_callback` keys the pending-counter record
by the responding driver's id; the next text reply from that driver that
parses as a number consumes it — the order is updated to counter_proposed
with the counter price, the client and driver are messaged, and the record
is cleared, so any further text reply from that driver finds no record and
produces no counter-offer and no order mutation.  A text reply that does NOT
parse as a number, however, leaves the record in place (error notice only,
no order mutation). -/
theorem C9_pending_counter_lifecycle (parse : String → Option ℚ)
    (oid : String) (c : ℕ) (p : String) (d : ℕ) (ud : UDMap)
    (orders : List OrderRec) (txt : String) :
    ((driver_counter_callback oid c p d ud).lookup d =
      some (.pendingCounter oid c p)) ∧
    (∀ q, ud.lookup d = some (.pendingCounter oid c p) → parse txt = some q →
      handle_driver_text_for_counter parse d txt ud orders =
        (popUD ud d,
         (update_order_in_sheet oid
           { status := some "counter_proposed"
             counter_price := some (toString q ++ " " ++ CURRENCY) }
           orders).2,
         [c, d]) ∧ (popUD ud d).lookup d = none) ∧
    (∀ (ud' : UDMap) (orders' : List OrderRec), ud'.lookup d = none →
      handle_driver_text_for_counter parse d txt ud' orders' =
        (ud', orders', [])) ∧
    (ud.lookup d = some (.pendingCounter oid c p) → parse txt = none →
      handle_driver_text_for_counter parse d txt ud orders =
        (ud, orders, [d])) := by
  refine ⟨lookup_setUD ud d _, ?_, ?_, ?_⟩
  · intro q hl hp
    refine ⟨?_, lookup_popUD ud d⟩
    simp only [handle_driver_text_for_counter, hl, hp]
  · intro ud' orders' hl
    simp only [handle_driver_text_for_counter, hl]
  · intro hl hp
    simp only [handle_driver_text_for_counter, hl, hp]

/-- Witness for C9: driver 7's pending counter over order `"O1"` is consumed
by the numeric reply `"30"`, after which a further reply does nothing. -/
theorem C9_witness :
    handle_driver_text_for_counter intPrice 7 "30"
      [(7, .pendingCounter "O1" 5 "25")] [oP] =
      ([], (update_order_in_sheet "O1"
        { status := some "counter_proposed"
          counter_price := some (toString (30 : ℚ) ++ " " ++ CURRENCY) }
        [oP]).2, [5, 7]) ∧
    handle_driver_text_for_counter intPrice 7 "40" [] [oP] = ([], [oP], []) := by
  have h := C9_pending_counter_lifecycle intPrice "O1" 5 "25" 7
    [(7, .pendingCounter "O1" 5 "25")] [oP] "30"
  have h30 : intPrice "30" = some 30 := by decide
  have hl : ([(7, UserData.pendingCounter "O1" 5 "25")] : UDMap).lookup 7 =
      some (.pendingCounter "O1" 5 "25") := by decide
  have hmain := (h.2.1 30 hl h30).1
  have hpop : popUD [(7, UserData.pendingCounter "O1" 5 "25")] 7 = [] := by
    decide
  constructor
  · rw [hmain, hpop]
  · exact (C9_pending_counter_lifecycle intPrice "O1" 5 "25" 7
      [(7, .pendingCounter "O1" 5 "25")] [oP] "40").2.2.1 [] [oP] rfl

end Wasal
